import Mathlib

/-!
Shallow embedding of the webhook ingestion and message-relay engine of the
whatsapp-chatbot repository, together with theorems settling the spec claims.

Conventions of the embedding:
* Python `datetime.utcnow()` is modelled by an explicit `now : Nat` clock
  parameter supplied to every operation that reads the clock.
* Python `Optional[str]` / nullable columns are `Option String`; dict `.get`
  with a default is `Option.getD`.
* The SQLAlchemy session is modelled by an explicit `DBState` record holding
  the persisted rows; `db.session.add` appends to the corresponding list,
  mutation of a fetched row is a pointwise list update, `rollback` restores
  the state from before the request.
* Ids that SQLAlchemy generates via `uuid4` column defaults are supplied as
  explicit fresh-id parameters.
* Outbound HTTP calls (Botpress forwarding, WhatsApp mark-as-read) have no
  effect on the database; their success or failure is an explicit Boolean
  input to the processing function.
-/

/-! ## Data model (src/models) -/

/-- Model of `Chatbot` (src/models/chatbot.py), restricted to the columns the
webhook routes read. -/
structure Chatbot where
  id : String
  company_id : String
  name : String
  whatsapp_phone_number_id : Option String
  whatsapp_phone_number : Option String
  botpress_bot_id : Option String
  auto_response_enabled : Bool
  status : String
deriving Repr, DecidableEq

/-- Model of `Conversation` (src/models/conversation.py lines 5-177),
restricted to the columns read or written by the code under study. -/
structure Conversation where
  id : String
  chatbot_id : String
  customer_phone : Option String
  customer_name : Option String
  status : String
  started_at : Nat
  ended_at : Option Nat
  last_message_at : Option Nat
  message_count : Nat
  updated_at : Nat
deriving Repr, DecidableEq

/-- Model of `Message` (src/models/conversation.py lines 180-289),
restricted to the columns read or written by the code under study. -/
structure Message where
  id : String
  conversation_id : String
  whatsapp_message_id : Option String
  direction : String
  type : String
  content : String
  media_url : Option String
  media_type : Option String
  sender_phone : Option String
  sender_name : Option String
  timestamp : Nat
  delivered_at : Option Nat
  read_at : Option Nat
  failed_at : Option Nat
  error_message : Option String
deriving Repr, DecidableEq

/-- Model of `WebhookEvent` (src/models/webhook.py lines 5-107), restricted to
the columns read or written by the code under study. -/
structure WebhookEvent where
  id : String
  event_type : String
  source : String
  processed : Bool
  processed_at : Option Nat
  error_message : Option String
  retry_count : Nat
deriving Repr, DecidableEq

/-- The persisted store: one list per table touched by the webhook routes.
`analytics` records the `event_name` of each `AnalyticsEvent` row added by
`AnalyticsEvent.track_event` (src/models/analytics.py lines 47-56). -/
structure DBState where
  chatbots : List Chatbot
  conversations : List Conversation
  messages : List Message
  webhook_events : List WebhookEvent
  analytics : List String
deriving Repr, DecidableEq

/-- `Message.mark_delivered` (src/models/conversation.py lines 236-238):
unconditionally sets `delivered_at = datetime.utcnow()`. -/
def Message.mark_delivered (m : Message) (now : Nat) : Message :=
  { m with delivered_at := some now }

/-- `Message.mark_read` (src/models/conversation.py lines 240-242):
unconditionally sets `read_at = datetime.utcnow()`. -/
def Message.mark_read (m : Message) (now : Nat) : Message :=
  { m with read_at := some now }

/-- `Message.mark_failed` (src/models/conversation.py lines 244-247):
unconditionally sets `failed_at = datetime.utcnow()` and `error_message`. -/
def Message.mark_failed (m : Message) (error_message : String) (now : Nat) :
    Message :=
  { m with failed_at := some now, error_message := some error_message }

/-- `Conversation.close` (src/models/conversation.py lines 89-93). -/
def Conversation.close (c : Conversation) (now : Nat) : Conversation :=
  { c with status := "closed", ended_at := some now, updated_at := now }

/-- `Conversation.reopen` (src/models/conversation.py lines 95-99): sets
`status = 'open'` and clears `ended_at` with no check of the current status. -/
def Conversation.reopen (c : Conversation) (now : Nat) : Conversation :=
  { c with status := "open", ended_at := none, updated_at := now }

/-- `Conversation.archive` (src/models/conversation.py lines 101-104). -/
def Conversation.archive (c : Conversation) (now : Nat) : Conversation :=
  { c with status := "archived", updated_at := now }

/-- `WebhookEvent.mark_processed` (src/models/webhook.py lines 46-49). -/
def WebhookEvent.mark_processed (w : WebhookEvent) (now : Nat) : WebhookEvent :=
  { w with processed := true, processed_at := some now }

/-- `WebhookEvent.mark_failed` (src/models/webhook.py lines 51-54): records the
error and increments `retry_count`. -/
def WebhookEvent.mark_failed (w : WebhookEvent) (error_message : String) :
    WebhookEvent :=
  { w with error_message := some error_message, retry_count := w.retry_count + 1 }

/-! ## Phone-number normalization (src/services/whatsapp_service.py) -/

/-- Character-list core of `WhatsAppService.format_phone_number`
(src/services/whatsapp_service.py lines 390-403).
`cleaned` is `''.join(filter(str.isdigit, phone_number))` (ASCII digits in
this model); the branches are the source's `if/elif` chain, with
`cleaned.startswith('7')` rendered as `cleaned.head? = some '7'` (equivalent
under the accompanying length guard), `f"7{cleaned}"` as `'7' :: cleaned` and
`cleaned[1:]` as `cleaned.tail`. -/
def format_phone_digits (chars : List Char) : List Char :=
  let cleaned := chars.filter Char.isDigit
  if cleaned.length = 10 ∧ cleaned.head? = some '7' then cleaned
  else if cleaned.length = 10 then '7' :: cleaned
  else if cleaned.length = 11 ∧ cleaned.head? = some '8' then '7' :: cleaned.tail
  else cleaned

/-- `WhatsAppService.format_phone_number` (src/services/whatsapp_service.py
lines 390-403) as a function on strings. -/
def format_phone_number (phone_number : String) : String :=
  String.mk (format_phone_digits phone_number.data)

theorem format_phone_digits_all_digits (chars : List Char) :
    (format_phone_digits chars).all Char.isDigit = true := by
  simp only [format_phone_digits]
  have hclean : ((chars.filter Char.isDigit).all Char.isDigit) = true := by
    simp only [List.all_eq_true]
    intro a ha
    exact (List.mem_filter.mp ha).2
  have htail : (((chars.filter Char.isDigit).tail).all Char.isDigit) = true := by
    simp only [List.all_eq_true] at hclean ⊢
    intro a ha
    exact hclean a (List.mem_of_mem_tail ha)
  split
  · exact hclean
  · split
    · simp [hclean]
    · split
      · simp [htail]
      · exact hclean

theorem filter_digits_format_phone_digits (chars : List Char) :
    (format_phone_digits chars).filter Char.isDigit = format_phone_digits chars := by
  have h := format_phone_digits_all_digits chars
  simp only [List.all_eq_true] at h
  exact List.filter_eq_self.mpr h

theorem format_phone_digits_of_fixed (c : List Char)
    (hc : c.filter Char.isDigit = c) :
    format_phone_digits c =
      if c.length = 10 ∧ c.head? = some '7' then c
      else if c.length = 10 then '7' :: c
      else if c.length = 11 ∧ c.head? = some '8' then '7' :: c.tail
      else c := by
  simp only [format_phone_digits, hc]

theorem format_phone_digits_len10_head (l : List Char) :
    (format_phone_digits l).length = 10 →
    (format_phone_digits l).head? = some '7' := by
  simp only [format_phone_digits]
  generalize l.filter Char.isDigit = c
  by_cases h1 : c.length = 10 ∧ c.head? = some '7'
  · rw [if_pos h1]
    intro _
    exact h1.2
  · rw [if_neg h1]
    by_cases h2 : c.length = 10
    · rw [if_pos h2]
      intro _
      rfl
    · rw [if_neg h2]
      by_cases h3 : c.length = 11 ∧ c.head? = some '8'
      · rw [if_pos h3]
        intro _
        rfl
      · rw [if_neg h3]
        intro hlen
        exact absurd hlen h2

theorem format_phone_digits_not_len11_head8 (l : List Char) :
    ¬((format_phone_digits l).length = 11 ∧
      (format_phone_digits l).head? = some '8') := by
  simp only [format_phone_digits]
  generalize l.filter Char.isDigit = c
  by_cases h1 : c.length = 10 ∧ c.head? = some '7'
  · rw [if_pos h1]
    intro hcon
    have h10 := h1.1
    have h11 := hcon.1
    omega
  · rw [if_neg h1]
    by_cases h2 : c.length = 10
    · rw [if_pos h2]
      intro hcon
      have := hcon.2
      simp at this
    · rw [if_neg h2]
      by_cases h3 : c.length = 11 ∧ c.head? = some '8'
      · rw [if_pos h3]
        intro hcon
        have := hcon.2
        simp at this
      · rw [if_neg h3]
        exact h3

theorem format_phone_digits_idem (l : List Char) :
    format_phone_digits (format_phone_digits l) = format_phone_digits l := by
  rw [format_phone_digits_of_fixed _ (filter_digits_format_phone_digits l)]
  by_cases hP1 : (format_phone_digits l).length = 10 ∧
      (format_phone_digits l).head? = some '7'
  · rw [if_pos hP1]
  · have hlen : ¬(format_phone_digits l).length = 10 := by
      intro h
      exact hP1 ⟨h, format_phone_digits_len10_head l h⟩
    rw [if_neg hP1, if_neg hlen, if_neg (format_phone_digits_not_len11_head8 l)]

/-- C9: phone-number normalization (`WhatsAppService.format_phone_number`) is
a pure total function on strings (it is a Lean `def`), its output consists
only of digit characters, and it is idempotent:
`format_phone_number (format_phone_number x) = format_phone_number x`. -/
theorem format_phone_number_idempotent_and_digits (x : String) :
    format_phone_number (format_phone_number x) = format_phone_number x ∧
    (format_phone_number x).data.all Char.isDigit = true := by
  constructor
  · show String.mk (format_phone_digits (format_phone_digits x.data)) =
      String.mk (format_phone_digits x.data)
    rw [format_phone_digits_idem]
  · exact format_phone_digits_all_digits x.data

/-! ## Normalized WhatsApp webhook events

`WhatsAppService.process_webhook_event` (src/services/whatsapp_service.py
lines 280-329) turns the provider envelope into a list of flat event dicts.
`WaEvent` models one such dict: optional fields model `.get` on keys that may
be absent or `None`. -/

/-- The `content` dict built by `WhatsAppService._extract_message_content`
(src/services/whatsapp_service.py lines 331-388), restricted to the keys the
webhook route reads (`text`, `media_id`, `mime_type`). -/
structure WaContent where
  text : Option String
  media_id : Option String
  mime_type : Option String
deriving Repr, DecidableEq

/-- Stand-in for `json.dumps(message_content)` applied to the modelled
`content` dict (src/routes/webhooks.py line 125): a deterministic rendering
of the three modelled keys. Its exact text is irrelevant to every claim. -/
def WaContent.dumps (c : WaContent) : String :=
  "content(text=" ++ (c.text.getD "null") ++ ", media_id=" ++
    (c.media_id.getD "null") ++ ", mime_type=" ++ (c.mime_type.getD "null") ++ ")"

/-- One normalized event dict produced by
`WhatsAppService.process_webhook_event`: either a `message_received` event
(lines 297-307) or a `message_status` event (lines 313-321). `event_from`
models the `from` key; `error_msg` models the nested
`event.get('error', ...).get('message', ...)` lookup result (`none` when
either key is absent). -/
structure WaEvent where
  type : String
  message_id : Option String
  event_from : Option String
  phone_number_id : Option String
  message_type : Option String
  content : WaContent
  status : Option String
  error_msg : Option String
deriving Repr, DecidableEq

/-! ## Status tracker (src/routes/webhooks.py lines 197-227) -/

/-- The status dispatch of `await_process_whatsapp_status`
(src/routes/webhooks.py lines 206-215), applied to the message found by
`whatsapp_message_id`. Each branch calls the corresponding `Message.mark_*`
method; an unrecognized status leaves the message unchanged. -/
def applyWaStatus (m : Message) (status : Option String) (err : Option String)
    (now : Nat) : Message :=
  if status == some "sent" then m.mark_delivered now
  else if status == some "delivered" then m.mark_delivered now
  else if status == some "read" then m.mark_read now
  else if status == some "failed" then m.mark_failed (err.getD "Unknown error") now
  else m

/-- Update of the single row returned by `query.filter_by(...).first()`:
the first list element satisfying `p` is replaced by `f` of it; all other
rows are untouched. -/
def updateFirst (p : Message → Bool) (f : Message → Message) :
    List Message → List Message
  | [] => []
  | m :: ms => if p m then f m :: ms else m :: updateFirst p f ms

/-- The final block shared by all the processing helpers in
src/routes/webhooks.py (e.g. lines 219-223): `WebhookEvent.query.get(id)`
followed, when a row is found, by setting `processed = True` and
`processed_at = utcnow()`. -/
def markEventProcessed (events : List WebhookEvent) (weid : Option String)
    (now : Nat) : List WebhookEvent :=
  match events.find? (fun w => some w.id == weid) with
  | some _ => events.map (fun w =>
      if some w.id == weid then { w with processed := true, processed_at := some now }
      else w)
  | none => events

/-- `await_process_whatsapp_status` (src/routes/webhooks.py lines 197-227):
looks up the first persisted Message with the event's `whatsapp_message_id`,
applies the status dispatch to it, then marks the webhook event processed. -/
def await_process_whatsapp_status (st : DBState) (ev : WaEvent)
    (webhook_event_id : Option String) (now : Nat) : DBState :=
  let st1 :=
    match st.messages.find? (fun m => m.whatsapp_message_id == ev.message_id) with
    | some _ =>
      let upd := updateFirst (fun m => m.whatsapp_message_id == ev.message_id)
        (fun m => applyWaStatus m ev.status ev.error_msg now) st.messages
      { st with messages := upd }
    | none => st
  { st1 with webhook_events := markEventProcessed st1.webhook_events webhook_event_id now }

/-! ## Concrete fixtures for the status-tracker claims -/

/-- An outbound message that has already been read (`read_at` set). -/
def msgRead : Message :=
  { id := "m1", conversation_id := "c1", whatsapp_message_id := some "w1",
    direction := "outbound", type := "text", content := "hi",
    media_url := none, media_type := none, sender_phone := some "700",
    sender_name := some "Bot", timestamp := 1, delivered_at := some 3,
    read_at := some 5, failed_at := none, error_message := none }

/-- An outbound message already in the failed state (`failed_at` set). -/
def msgFailed : Message :=
  { id := "m2", conversation_id := "c1", whatsapp_message_id := some "w2",
    direction := "outbound", type := "text", content := "yo",
    media_url := none, media_type := none, sender_phone := some "700",
    sender_name := some "Bot", timestamp := 2, delivered_at := none,
    read_at := none, failed_at := some 4, error_message := some "boom" }

/-- An unprocessed `message_status` webhook event row. -/
def weStatus : WebhookEvent :=
  { id := "we1", event_type := "message_status", source := "whatsapp",
    processed := false, processed_at := none, error_message := none,
    retry_count := 0 }

/-- Store holding the two messages above and one webhook event row. -/
def stStatus : DBState :=
  { chatbots := [], conversations := [], messages := [msgRead, msgFailed],
    webhook_events := [weStatus], analytics := [] }

/-- A `message_status` event carrying status `delivered` for message `w1`. -/
def evDeliveredW1 : WaEvent :=
  { type := "message_status", message_id := some "w1", event_from := none,
    phone_number_id := some "pn1", message_type := none,
    content := { text := none, media_id := none, mime_type := none },
    status := some "delivered", error_msg := none }

/-- A `message_status` event carrying status `read` for message `w2`. -/
def evReadW2 : WaEvent :=
  { type := "message_status", message_id := some "w2", event_from := none,
    phone_number_id := some "pn1", message_type := none,
    content := { text := none, media_id := none, mime_type := none },
    status := some "read", error_msg := none }

/-- C2 counterexample: the claim that status transitions are monotone fails
on the code. Applying a `delivered` callback at time 9 to `msgRead` (whose
`read_at = 5` is already set) does not drop the transition: it overwrites
`delivered_at` with 9, so the message is mutated, not left in its prior
state. Moreover a `read` callback mutates `msgFailed`, a message already in
the terminal `failed` state, setting its `read_at`. -/
theorem status_lattice_counterexample :
    (((await_process_whatsapp_status stStatus evDeliveredW1 (some "we1") 9).messages.find?
        (fun m => m.whatsapp_message_id == some "w1")).map Message.delivered_at
      = some (some 9)) ∧
    ((await_process_whatsapp_status stStatus evDeliveredW1 (some "we1") 9).messages.find?
        (fun m => m.whatsapp_message_id == some "w1")) ≠ some msgRead ∧
    msgRead.read_at = some 5 ∧
    msgFailed.failed_at = some 4 ∧
    (((await_process_whatsapp_status stStatus evReadW2 (some "we1") 9).messages.find?
        (fun m => m.whatsapp_message_id == some "w2")).map Message.read_at
      = some (some 9)) := by
  decide

/-- C2 amended: status callbacks are applied unconditionally, with no
monotonicity check. A `delivered` (or `sent`) callback sets `delivered_at`
to the current time regardless of `read_at` or `failed_at` (the backward
transition is applied, not dropped — only `delivered_at` changes, so
`read_at` itself survives); `read` and `failed` callbacks likewise mutate
the message regardless of its prior state, including the failed state. -/
theorem status_callbacks_unconditional (m : Message) (err : Option String)
    (now : Nat) :
    applyWaStatus m (some "delivered") err now = { m with delivered_at := some now } ∧
    applyWaStatus m (some "sent") err now = { m with delivered_at := some now } ∧
    applyWaStatus m (some "read") err now = { m with read_at := some now } ∧
    applyWaStatus m (some "failed") err now
      = { m with failed_at := some now,
                 error_message := some (err.getD "Unknown error") } :=
  ⟨rfl, rfl, rfl, rfl⟩

/-- C10: a status callback with status `sent` has exactly the same effect as
one with status `delivered` — the whole processing step produces identical
states — and that effect is to set `delivered_at := now` and change nothing
else; no distinct `sent` state is recorded. A `read` callback sets `read_at`
and leaves `delivered_at` untouched. -/
theorem sent_status_equals_delivered (st : DBState) (ev : WaEvent)
    (weid : Option String) (m : Message) (err : Option String) (now : Nat) :
    await_process_whatsapp_status st { ev with status := some "sent" } weid now
      = await_process_whatsapp_status st { ev with status := some "delivered" } weid now ∧
    applyWaStatus m (some "sent") err now = { m with delivered_at := some now } ∧
    (applyWaStatus m (some "read") err now).read_at = some now ∧
    (applyWaStatus m (some "read") err now).delivered_at = m.delivered_at :=
  ⟨rfl, rfl, rfl, rfl⟩

/-! ## Message persistence (src/models/conversation.py lines 73-87) -/

/-- The `message_data` dict assembled by the webhook routes and passed to
`Conversation.add_message` (e.g. src/routes/webhooks.py lines 122-136):
the columns of the new Message other than those `add_message` supplies. -/
structure MessageData where
  direction : String
  type : String
  content : String
  sender_phone : Option String
  sender_name : Option String
  whatsapp_message_id : Option String
  media_url : Option String
  media_type : Option String
deriving Repr, DecidableEq

/-- `Conversation.add_message` (src/models/conversation.py lines 73-87):
builds the new Message with `conversation_id = self.id`, adds it to the
session, and in the same unit of work increments `message_count` and sets
`last_message_at = message.timestamp` and `updated_at`. The message's
`timestamp` column default (`utcnow`) fires only at flush: the persisted row
gets `timestamp = now`, but when line 84 reads `message.timestamp` the
attribute is still `None`, so the conversation's `last_message_at` is
assigned `None` (persisted NULL). Returns the updated conversation and the
message as persisted. -/
def Conversation.add_message (c : Conversation) (new_id : String)
    (md : MessageData) (now : Nat) : Conversation × Message :=
  let timestamp_before_flush : Option Nat := none
  let message : Message :=
    { id := new_id, conversation_id := c.id,
      whatsapp_message_id := md.whatsapp_message_id,
      direction := md.direction, type := md.type, content := md.content,
      media_url := md.media_url, media_type := md.media_type,
      sender_phone := md.sender_phone, sender_name := md.sender_name,
      timestamp := now, delivered_at := none, read_at := none,
      failed_at := none, error_message := none }
  ({ c with message_count := c.message_count + 1,
            last_message_at := timestamp_before_flush,
            updated_at := now }, message)

/-- Effect of a `conversation.add_message(message_data)` call on the store:
the session gains the new Message row and the conversation row is updated,
both in the same unit of work. -/
def applyAddMessage (st : DBState) (c : Conversation) (new_id : String)
    (md : MessageData) (now : Nat) : DBState :=
  let pair := c.add_message new_id md now
  { st with
      conversations := st.conversations.map
        (fun x => if x.id == c.id then pair.1 else x),
      messages := st.messages ++ [pair.2] }

/-- The dedupe/consistency invariant named by the spec: every conversation's
`message_count` equals the number of persisted Message rows referencing it. -/
def messageCountInv (st : DBState) : Prop :=
  ∀ c ∈ st.conversations,
    c.message_count = (st.messages.filter (fun m => m.conversation_id == c.id)).length

/-! ## Inbound message processing (src/routes/webhooks.py lines 72-195) -/

/-- The chatbot lookup of src/routes/webhooks.py lines 81-84:
`Chatbot.query.filter_by(whatsapp_phone_number_id=..., status='active').first()`. -/
def findActiveChatbot (st : DBState) (phone_number_id : Option String) :
    Option Chatbot :=
  st.chatbots.find? (fun cb =>
    cb.whatsapp_phone_number_id == phone_number_id && cb.status == "active")

/-- The conversation resolution of src/routes/webhooks.py lines 90-119:
find the open conversation for `(chatbot, customer_phone)`; when none
exists, create one (id from the uuid default, modelled by `new_conv_id`),
add it to the session, and track a `conversation_started` analytics event.
Returns the updated store and the resolved conversation. -/
def resolveConversation (st : DBState) (chatbot : Chatbot)
    (customer_phone : Option String) (now : Nat) (new_conv_id : String) :
    DBState × Conversation :=
  match st.conversations.find? (fun c =>
      c.chatbot_id == chatbot.id && c.customer_phone == customer_phone
        && c.status == "open") with
  | some conversation => (st, conversation)
  | none =>
    let conversation : Conversation :=
      { id := new_conv_id, chatbot_id := chatbot.id,
        customer_phone := customer_phone, customer_name := customer_phone,
        status := "open", started_at := now, ended_at := none,
        last_message_at := some now, message_count := 0, updated_at := now }
    ({ st with conversations := st.conversations ++ [conversation],
               analytics := st.analytics ++ ["conversation_started"] },
     conversation)

/-- The `message_data` dict of src/routes/webhooks.py lines 122-136. -/
def buildInboundMessageData (ev : WaEvent) : MessageData :=
  let message_type := ev.message_type.getD "text"
  let message_content := ev.content
  { direction := "inbound", type := message_type,
    content := if message_type == "text" then message_content.text.getD ""
               else message_content.dumps,
    sender_phone := ev.event_from, sender_name := ev.event_from,
    whatsapp_message_id := ev.message_id,
    media_url := if message_type != "text" then message_content.media_id else none,
    media_type := if message_type != "text" then message_content.mime_type else none }

/-- `await_process_whatsapp_message` (src/routes/webhooks.py lines 72-195).
Steps, in source order: look up the active chatbot by `phone_number_id`
(return unchanged when none); resolve or create the open conversation;
build `message_data` and call `conversation.add_message` (tracking a
`message_received` analytics event); forward to Botpress when configured —
an outbound HTTP call whose failure is caught and logged at lines 176-177,
its outcome `forward_ok` having no effect on the store; mark the WhatsApp
message as read — likewise caught at lines 182-183 (`mark_read_ok`); finally
mark the webhook event row processed. There is no dedupe check against
`whatsapp_message_id` anywhere in this function. -/
def await_process_whatsapp_message (st : DBState) (ev : WaEvent)
    (webhook_event_id : Option String) (now : Nat)
    (new_conv_id new_msg_id : String) (forward_ok mark_read_ok : Bool) :
    DBState :=
  match findActiveChatbot st ev.phone_number_id with
  | none => st
  | some _chatbot =>
    let resolved := resolveConversation st _chatbot ev.event_from now new_conv_id
    let st2 := applyAddMessage resolved.1 resolved.2
      new_msg_id (buildInboundMessageData ev) now
    let st3 := { st2 with analytics := st2.analytics ++ ["message_received"] }
    { st3 with webhook_events :=
        markEventProcessed st3.webhook_events webhook_event_id now }

theorem resolveConversation_messages (st : DBState) (cb : Chatbot)
    (phone : Option String) (now : Nat) (ncid : String) :
    (resolveConversation st cb phone now ncid).1.messages = st.messages := by
  unfold resolveConversation
  cases st.conversations.find? (fun c =>
    c.chatbot_id == cb.id && c.customer_phone == phone && c.status == "open") <;> rfl

theorem resolveConversation_webhook_events (st : DBState) (cb : Chatbot)
    (phone : Option String) (now : Nat) (ncid : String) :
    (resolveConversation st cb phone now ncid).1.webhook_events = st.webhook_events := by
  unfold resolveConversation
  cases st.conversations.find? (fun c =>
    c.chatbot_id == cb.id && c.customer_phone == phone && c.status == "open") <;> rfl

theorem markEventProcessed_retry_fields (es : List WebhookEvent)
    (weid : Option String) (now : Nat) :
    (markEventProcessed es weid now).map (fun w => (w.retry_count, w.error_message))
      = es.map (fun w => (w.retry_count, w.error_message)) := by
  unfold markEventProcessed
  cases es.find? (fun w => some w.id == weid) with
  | none => rfl
  | some _ =>
    rw [List.map_map]
    apply List.map_congr_left
    intro w _
    by_cases h : some w.id = weid
    · simp [h]
    · simp [h]

/-! ## Concrete fixtures for the inbound-message claims -/

/-- An active chatbot bound to phone-number id `pn1`, Botpress-connected with
auto-response enabled. -/
def cbActive : Chatbot :=
  { id := "cb1", company_id := "co1", name := "Bot",
    whatsapp_phone_number_id := some "pn1",
    whatsapp_phone_number := some "700", botpress_bot_id := some "b1",
    auto_response_enabled := true, status := "active" }

/-- An unprocessed `message_received` webhook event row. -/
def weInbound : WebhookEvent :=
  { id := "weM", event_type := "message_received", source := "whatsapp",
    processed := false, processed_at := none, error_message := none,
    retry_count := 0 }

/-- Store with the active chatbot, no conversations or messages yet, and the
unprocessed inbound event row. -/
def stInbound : DBState :=
  { chatbots := [cbActive], conversations := [], messages := [],
    webhook_events := [weInbound], analytics := [] }

/-- A normalized inbound text message `Hello` with external message id
`wamid.1`. -/
def evHello : WaEvent :=
  { type := "message_received", message_id := some "wamid.1",
    event_from := some "77010000000", phone_number_id := some "pn1",
    message_type := some "text",
    content := { text := some "Hello", media_id := none, mime_type := none },
    status := none, error_msg := none }

/-- First delivery of `evHello`, with successful forwarding. -/
def stAfterFirstDelivery : DBState :=
  await_process_whatsapp_message stInbound evHello (some "weM") 10 "conv1" "m1"
    true true

/-- Redelivery of the very same payload `evHello`, processed a second time. -/
def stAfterRedelivery : DBState :=
  await_process_whatsapp_message stAfterFirstDelivery evHello (some "weM") 20
    "conv2" "m2" true true

/-- Processing of `evHello` in which the Botpress forwarding call fails
(`forward_ok = false`). -/
def stAfterFailedForward : DBState :=
  await_process_whatsapp_message stInbound evHello (some "weM") 10 "conv1" "m1"
    false false

/-- C1 counterexample: redelivering the same inbound payload does not
produce zero new Message rows. Processing `evHello` (external id `wamid.1`)
twice through `await_process_whatsapp_message` leaves two persisted Messages
with that `whatsapp_message_id`, not one: the handler has no dedupe check. -/
theorem dedupe_counterexample :
    (stAfterFirstDelivery.messages.filter
        (fun m => m.whatsapp_message_id == some "wamid.1")).length = 1 ∧
    (stAfterRedelivery.messages.filter
        (fun m => m.whatsapp_message_id == some "wamid.1")).length = 2 := by
  decide

/-- C1 amended: `await_process_whatsapp_message` performs no dedupe check.
Whenever the active-chatbot lookup succeeds, processing appends exactly one
new Message whose `whatsapp_message_id` is the event's external message id —
even when a Message with that external id is already persisted — so
redelivering the same payload appends a further row each time. -/
theorem await_process_message_always_appends (st : DBState) (ev : WaEvent)
    (weid : Option String) (now : Nat) (ncid nmid : String) (f r : Bool)
    (h : (findActiveChatbot st ev.phone_number_id).isSome = true) :
    ∃ m : Message,
      (await_process_whatsapp_message st ev weid now ncid nmid f r).messages
        = st.messages ++ [m] ∧
      m.whatsapp_message_id = ev.message_id := by
  unfold await_process_whatsapp_message
  cases hcb : findActiveChatbot st ev.phone_number_id with
  | none =>
    rw [hcb] at h
    simp at h
  | some cb =>
    refine ⟨((resolveConversation st cb ev.event_from now ncid).2.add_message
      nmid (buildInboundMessageData ev) now).2, ?_, rfl⟩
    show (applyAddMessage (resolveConversation st cb ev.event_from now ncid).1
        (resolveConversation st cb ev.event_from now ncid).2 nmid
        (buildInboundMessageData ev) now).messages = _
    show (resolveConversation st cb ev.event_from now ncid).1.messages ++ _ = _
    rw [resolveConversation_messages]

/-- Witness for `await_process_message_always_appends` at the concrete store
`stInbound` and payload `evHello`. -/
theorem await_process_message_always_appends_witness :
    ∃ m : Message,
      (await_process_whatsapp_message stInbound evHello (some "weM") 10
        "conv1" "m1" true true).messages = stInbound.messages ++ [m] ∧
      m.whatsapp_message_id = evHello.message_id :=
  await_process_message_always_appends stInbound evHello (some "weM") 10
    "conv1" "m1" true true (by decide)

/-- C4 counterexample: when the Botpress forwarding call fails, processing
does not leave the WebhookEvent unprocessed with `retry_count = 1`. On the
concrete store `stInbound`, processing `evHello` with a failed forwarding
call leaves the event row `weM` with `processed = true` and
`retry_count = 0`, while the inbound Message is persisted. -/
theorem forwarding_failure_counterexample :
    ((stAfterFailedForward.webhook_events.find? (fun w => w.id == "weM")).map
        (fun w => (w.processed, w.retry_count)) = some (true, 0)) ∧
    stAfterFailedForward.messages.length = 1 := by
  decide

/-- C4 amended: the forwarding outcome is swallowed (the exception handler at
src/routes/webhooks.py lines 176-177 only logs). Processing produces exactly
the same store whether forwarding succeeds or fails, and it never touches any
event row's `retry_count` or `error_message` (`WebhookEvent.mark_failed` is
never invoked on this path), so the Retry Worker has nothing to re-attempt. -/
theorem forwarding_outcome_ignored (st : DBState) (ev : WaEvent)
    (weid : Option String) (now : Nat) (ncid nmid : String) (f r : Bool) :
    await_process_whatsapp_message st ev weid now ncid nmid f r
      = await_process_whatsapp_message st ev weid now ncid nmid true true ∧
    (await_process_whatsapp_message st ev weid now ncid nmid f r).webhook_events.map
        (fun w => (w.retry_count, w.error_message))
      = st.webhook_events.map (fun w => (w.retry_count, w.error_message)) := by
  constructor
  · rfl
  · unfold await_process_whatsapp_message
    cases findActiveChatbot st ev.phone_number_id with
    | none => rfl
    | some cb =>
      show (markEventProcessed
        (applyAddMessage (resolveConversation st cb ev.event_from now ncid).1
          (resolveConversation st cb ev.event_from now ncid).2 nmid
          (buildInboundMessageData ev) now).webhook_events weid now).map _ = _
      show (markEventProcessed
        (resolveConversation st cb ev.event_from now ncid).1.webhook_events
        weid now).map _ = _
      rw [markEventProcessed_retry_fields, resolveConversation_webhook_events]

/-- C5: `Conversation.add_message` keeps `message_count` consistent, doing
all its writes in one unit of work: it appends exactly one Message row
referencing the conversation and, in the same state transition, increments
the conversation's `message_count` and assigns its `last_message_at` and
`updated_at` (the assigned `last_message_at` value being the pre-flush
`None` of the new message's `timestamp` column, persisted NULL).
Consequently, on any store whose conversations have distinct ids and satisfy
the count invariant, the store after an `add_message` call satisfies it
again. -/
theorem add_message_preserves_count_inv (st : DBState) (conv : Conversation)
    (nid : String) (md : MessageData) (now : Nat)
    (hinv : messageCountInv st)
    (hnodup : (st.conversations.map Conversation.id).Nodup)
    (hmem : conv ∈ st.conversations) :
    messageCountInv (applyAddMessage st conv nid md now) ∧
    (applyAddMessage st conv nid md now).messages.length
      = st.messages.length + 1 ∧
    (conv.add_message nid md now).1
      = { conv with message_count := conv.message_count + 1,
                    last_message_at := none, updated_at := now } := by
  have hmsgs : (applyAddMessage st conv nid md now).messages
      = st.messages ++ [(conv.add_message nid md now).2] := rfl
  have hconvs : (applyAddMessage st conv nid md now).conversations
      = st.conversations.map (fun x =>
          if x.id == conv.id then (conv.add_message nid md now).1 else x) := rfl
  refine ⟨?_, ?_, rfl⟩
  · intro c hc
    rw [hconvs, List.mem_map] at hc
    obtain ⟨x, hx, hfx⟩ := hc
    rw [hmsgs, List.filter_append, List.length_append]
    by_cases hid : x.id = conv.id
    · have hxconv : x = conv := List.inj_on_of_nodup_map hnodup hx hmem hid
      have hc' : c = (conv.add_message nid md now).1 := by
        rw [← hfx, hxconv]
        simp
      have hcid : c.id = conv.id := by
        rw [hc']
        rfl
      have hsingle : (List.filter (fun m => m.conversation_id == c.id)
          [(conv.add_message nid md now).2]).length = 1 := by
        have hp : ((conv.add_message nid md now).2.conversation_id == c.id) = true := by
          rw [hcid]
          exact beq_self_eq_true _
        simp [List.filter, hp]
      have hcount : c.message_count = conv.message_count + 1 := by
        rw [hc']
        rfl
      rw [hsingle, hcount, hcid, hinv conv hmem]
    · have hc' : c = x := by
        rw [← hfx]
        simp [hid]
      have hp : ((conv.add_message nid md now).2.conversation_id == c.id) = false := by
        have hne : ¬(conv.id = c.id) := by
          rw [hc']
          intro hcon
          exact hid hcon.symm
        exact beq_eq_false_iff_ne.mpr hne
      have hempty : (List.filter (fun m => m.conversation_id == c.id)
          [(conv.add_message nid md now).2]).length = 0 := by
        simp [List.filter, hp]
      rw [hempty, hc']
      have := hinv x hx
      omega
  · rw [hmsgs, List.length_append]
    rfl

/-- A conversation with no messages yet. -/
def convEmpty : Conversation :=
  { id := "c1", chatbot_id := "cb1", customer_phone := some "77010000000",
    customer_name := some "77010000000", status := "open", started_at := 1,
    ended_at := none, last_message_at := none, message_count := 0,
    updated_at := 1 }

/-- Store holding only `convEmpty`, which trivially satisfies the count
invariant. -/
def stCount : DBState :=
  { chatbots := [], conversations := [convEmpty], messages := [],
    webhook_events := [], analytics := [] }

/-- An inbound text message-data record. -/
def mdText : MessageData :=
  { direction := "inbound", type := "text", content := "Hello",
    sender_phone := some "77010000000", sender_name := some "77010000000",
    whatsapp_message_id := some "wamid.9", media_url := none,
    media_type := none }

/-- Witness for `add_message_preserves_count_inv` on the concrete store
`stCount`. -/
theorem add_message_preserves_count_inv_witness :
    messageCountInv (applyAddMessage stCount convEmpty "m1" mdText 7) ∧
    (applyAddMessage stCount convEmpty "m1" mdText 7).messages.length
      = stCount.messages.length + 1 ∧
    (convEmpty.add_message "m1" mdText 7).1
      = { convEmpty with message_count := convEmpty.message_count + 1,
                         last_message_at := none, updated_at := 7 } :=
  add_message_preserves_count_inv stCount convEmpty "m1" mdText 7
    (by unfold messageCountInv; decide) (by decide) (by decide)

/-! ## Webhook verification handshake (GET /webhooks/whatsapp) -/

/-- Python truthiness of an optional string: `None` and `''` are falsy. -/
def pyTruthyStr : Option String → Bool
  | none => false
  | some s => !(s == "")

/-- `WhatsAppService.verify_webhook` (src/services/whatsapp_service.py lines
271-278). `verify_token` is `self.verify_token`, read from the
`WHATSAPP_VERIFY_TOKEN` environment variable (`none` when unset); `mode`,
`token` and `challenge` are the query parameters, `none` when absent.
Returns the challenge when `mode == "subscribe"` and the token matches,
`None` otherwise. -/
def verify_webhook (verify_token mode token challenge : Option String) :
    Option String :=
  if mode == some "subscribe" && token == verify_token then challenge else none

/-- Route `GET /webhooks/whatsapp`, `verify_whatsapp_webhook`
(src/routes/webhooks.py lines 17-35): returns `(result, 200)` when the
service result is truthy, `('Verification failed', 403)` otherwise (so also
when the challenge itself is `None` or the empty string). -/
def verify_whatsapp_webhook (verify_token mode token challenge : Option String) :
    Nat × String :=
  let result := verify_webhook verify_token mode token challenge
  if pyTruthyStr result then (200, result.getD "")
  else (403, "Verification failed")

/-- C7 counterexample: the handshake does not succeed for every input with
`mode = "subscribe"` and a matching token. With the verify token configured
as `tok`, a request with `mode = "subscribe"`, `token = "tok"` and an empty
(or missing) challenge is answered with 403, although the claim requires a
200 echo of the challenge whenever mode and token are right. -/
theorem handshake_counterexample :
    (verify_whatsapp_webhook (some "tok") (some "subscribe") (some "tok")
      (some "")).1 = 403 ∧
    (verify_whatsapp_webhook (some "tok") (some "subscribe") (some "tok")
      none).1 = 403 := by
  decide

/-- C7 amended: the handshake succeeds — echoing the literal challenge with
200 — iff `mode = "subscribe"`, the token equals the configured verify token
and the challenge is present and non-empty (Python truthiness of the echoed
result); in every other case, including a correct mode and token with an
empty or missing challenge, it returns 403 `Verification failed`. -/
theorem handshake_characterization (vt mode token challenge : Option String) :
    verify_whatsapp_webhook vt mode token challenge
      = if mode = some "subscribe" ∧ token = vt ∧ challenge.getD "" ≠ ""
        then (200, challenge.getD "") else (403, "Verification failed") := by
  rcases challenge with _ | c
  · by_cases h1 : mode = some "subscribe" <;>
      by_cases h2 : token = vt <;>
        simp [verify_whatsapp_webhook, verify_webhook, pyTruthyStr, h1, h2]
  · by_cases h1 : mode = some "subscribe" <;>
      by_cases h2 : token = vt <;>
        by_cases h3 : c = "" <;>
          simp [verify_whatsapp_webhook, verify_webhook, pyTruthyStr, h1, h2, h3]

/-! ## Conversation reopen (src/routes/conversations.py lines 235-268) -/

/-- The slice of a `User` row the reopen route reads: its id and the ids of
the companies returned by `user.get_companies()`. -/
structure UserM where
  id : String
  company_ids : List String
deriving Repr, DecidableEq

/-- Route `POST /conversations/<id>/reopen`, `reopen_conversation`
(src/routes/conversations.py lines 235-268): 404 when the user or the
conversation is missing; 403 when the conversation's chatbot belongs to none
of the user's companies; otherwise `conversation.reopen()` is called and
committed and the route answers 200 — with no check whatsoever of the
conversation's current status. (A conversation whose chatbot row is absent
would raise on the `chatbot.company_id` access and be answered 500 by the
outer handler.) -/
def reopen_conversation (st : DBState) (users : List UserM) (user_id : String)
    (conversation_id : String) (now : Nat) : Nat × DBState :=
  match users.find? (fun u => u.id == user_id) with
  | none => (404, st)
  | some user =>
    match st.conversations.find? (fun c => c.id == conversation_id) with
    | none => (404, st)
    | some conversation =>
      match st.chatbots.find? (fun cb => cb.id == conversation.chatbot_id) with
      | none => (500, st)
      | some chatbot =>
        if user.company_ids.contains chatbot.company_id then
          let convs := st.conversations.map
            (fun c => if c.id == conversation_id then c.reopen now else c)
          (200, { st with conversations := convs })
        else (403, st)

/-- An archived conversation owned by `cbActive`. -/
def convArchived : Conversation :=
  { id := "cv9", chatbot_id := "cb1", customer_phone := some "77010000000",
    customer_name := some "77010000000", status := "archived", started_at := 1,
    ended_at := some 2, last_message_at := none, message_count := 0,
    updated_at := 2 }

/-- Store holding the archived conversation and its chatbot. -/
def stReopen : DBState :=
  { chatbots := [cbActive], conversations := [convArchived], messages := [],
    webhook_events := [], analytics := [] }

/-- An agent belonging to the chatbot's company `co1`. -/
def userAgent : UserM := { id := "u1", company_ids := ["co1"] }

/-- C8 counterexample: Reopen does move an archived conversation to `open`.
On the concrete store `stReopen`, reopening the conversation `cv9` whose
status is `archived` answers 200 and leaves the conversation with status
`open`, contradicting the claim that Reopen is permitted only from
`closed`. -/
theorem reopen_archived_counterexample :
    convArchived.status = "archived" ∧
    (reopen_conversation stReopen [userAgent] "u1" "cv9" 9).1 = 200 ∧
    (((reopen_conversation stReopen [userAgent] "u1" "cv9" 9).2.conversations.find?
        (fun c => c.id == "cv9")).map Conversation.status) = some "open" := by
  decide

/-- C8 amended: `Conversation.reopen` transitions the conversation to `open`
unconditionally — from any current status, `archived` included — and clears
`ended_at`; neither the model method nor the route checks the prior status. -/
theorem reopen_unconditionally_opens (c : Conversation) (now : Nat) :
    (c.reopen now).status = "open" ∧ (c.reopen now).ended_at = none :=
  ⟨rfl, rfl⟩

/-! ## The webhook POST endpoints (src/routes/webhooks.py lines 37-70 and
229-274)

Both endpoints record each event with
`WebhookEvent(source=..., event_type=..., event_data=..., ..., processed=False)`
(lines 49-55 and 250-256). `WebhookEvent.__init__`
(src/models/webhook.py line 21) declares `payload` as a required parameter
and the model has no `event_data` column; neither call site passes
`payload`, so the constructor call raises
`TypeError: __init__() missing 1 required positional argument: 'payload'`
before any row is created. The outer `except` of each route then rolls the
session back and answers 500. -/

/-- The `WebhookEvent(...)` constructor call as written at the two route
call sites: always raises (see the section comment above). -/
def routeWebhookEventInit (source event_type : String) :
    Except String WebhookEvent :=
  Except.error ("TypeError: WebhookEvent.__init__ missing required argument " ++
    "payload (source=" ++ source ++ ", event_type=" ++ event_type ++ ")")

/-- One iteration of the `for event in events` loop of
`handle_whatsapp_webhook` (src/routes/webhooks.py lines 47-62): construct
and add the raw WebhookEvent row, then dispatch on the event type. The
construction raises, so the dispatch — which would receive
`webhook_event.id`, still `None` because the uuid column default is only
assigned at flush — is never reached. -/
def storeAndProcessEvent (st : DBState) (ev : WaEvent) (now : Nat)
    (new_conv_id new_msg_id : String) (forward_ok mark_read_ok : Bool) :
    Except String DBState := do
  let webhook_event ← routeWebhookEventInit "whatsapp" ev.type
  let st1 := { st with webhook_events := st.webhook_events ++ [webhook_event] }
  if ev.type == "message_received" then
    pure (await_process_whatsapp_message st1 ev none now new_conv_id new_msg_id
      forward_ok mark_read_ok)
  else if ev.type == "message_status" then
    pure (await_process_whatsapp_status st1 ev none now)
  else
    pure st1

/-- `handle_whatsapp_webhook` (POST /webhooks/whatsapp, src/routes/webhooks.py
lines 37-70): iterates over the normalized events; on success commits and
answers 200; on any exception anywhere in the loop rolls the whole session
back — discarding every row added for this request — and answers 500. -/
def handle_whatsapp_webhook (st : DBState) (events : List WaEvent) (now : Nat)
    (new_conv_id new_msg_id : String) (forward_ok mark_read_ok : Bool) :
    Nat × DBState :=
  match events.foldlM (fun s ev =>
      storeAndProcessEvent s ev now new_conv_id new_msg_id forward_ok mark_read_ok) st with
  | Except.ok st' => (200, st')
  | Except.error _ => (500, st)

/-- C3 counterexample: a POST whose batch contains a sub-event does not get
a 200 with the raw rows committed. Processing the batch `[evHello]` — one
perfectly well-formed inbound message — on the store `stInbound` answers 500
with the session rolled back (no WebhookEvent recorded): the record step
itself raises, and any failure inside the loop is surfaced as a batch-level
error response, not swallowed per sub-event. -/
theorem batch_error_counterexample :
    handle_whatsapp_webhook stInbound [evHello] 10 "conv1" "m1" true true
      = (500, stInbound) := by
  decide

/-- C3 amended: the endpoint answers 200 only for a batch with zero events
(nothing to record); for every batch containing at least one event the
`WebhookEvent` record step raises, the outer handler rolls back the whole
session — so no raw event row is durably committed — and the provider
receives a batch-level 500 error response. -/
theorem handle_whatsapp_webhook_batch_failure (st : DBState)
    (events : List WaEvent) (now : Nat) (ncid nmid : String) (f r : Bool) :
    (events = [] →
      handle_whatsapp_webhook st events now ncid nmid f r = (200, st)) ∧
    (events ≠ [] →
      handle_whatsapp_webhook st events now ncid nmid f r = (500, st)) := by
  constructor
  · intro h
    subst h
    rfl
  · intro h
    cases events with
    | nil => exact absurd rfl h
    | cons e es => rfl

/-- Witness for `handle_whatsapp_webhook_batch_failure`: the empty batch is
answered 200 and the singleton batch `[evReadW2]` is answered 500, both
leaving the store unchanged. -/
theorem handle_whatsapp_webhook_batch_failure_witness :
    handle_whatsapp_webhook stInbound [] 10 "conv1" "m1" true true
      = (200, stInbound) ∧
    handle_whatsapp_webhook stInbound [evReadW2] 10 "conv1" "m1" true true
      = (500, stInbound) :=
  ⟨(handle_whatsapp_webhook_batch_failure stInbound [] 10 "conv1" "m1"
      true true).1 rfl,
   (handle_whatsapp_webhook_batch_failure stInbound [evReadW2] 10 "conv1" "m1"
      true true).2 (by decide)⟩

/-! ## Botpress webhook endpoint (src/routes/webhooks.py lines 229-274) -/

/-- The parsed JSON body of a Botpress callback, restricted to the keys
`BotpressService.process_webhook_event` reads. -/
structure BpWebhookData where
  type : Option String
  botId : Option String
  conversationId : Option String
deriving Repr, DecidableEq

/-- The dict built by `BotpressService.process_webhook_event`
(src/services/botpress_service.py lines 281-295), restricted to the keys
the route reads. -/
structure BpEvent where
  event_type : Option String
  bot_id : Option String
  conversation_id : Option String
deriving Repr, DecidableEq

/-- `BotpressService.process_webhook_event` (src/services/botpress_service.py
lines 281-295): repackages `type`, `botId` and `conversationId` from the
payload. -/
def botpress_process_webhook_event (d : BpWebhookData) : BpEvent :=
  { event_type := d.type, bot_id := d.botId, conversation_id := d.conversationId }

/-- `BotpressService.validate_webhook_signature`
(src/services/botpress_service.py lines 268-279): recomputes the HMAC-SHA256
hex digest of the payload under the secret and compares the header value
against `sha256=<digest>` (`hmac.compare_digest`, modelled as equality —
the constant-time aspect has no value-level content). The digest function
itself is an uninterpreted parameter `hmac_sha256_hex secret payload`. -/
def validate_webhook_signature (hmac_sha256_hex : String → String → String)
    (payload signature secret : String) : Bool :=
  signature == "sha256=" ++ hmac_sha256_hex secret payload

/-- `handle_botpress_webhook` (POST /webhooks/botpress,
src/routes/webhooks.py lines 229-274). The guards `if signature:` (line 238)
and `if webhook_secret:` (line 240) are Python truthiness tests, modelled by
`pyTruthyStr`: validation runs only when the `X-Botpress-Signature` header is
present AND non-empty AND the configured secret is likewise truthy; a
missing or empty-string header (or secret) bypasses validation entirely.
After the check the route records the event — which raises
(`routeWebhookEventInit`), so the dispatch to the `await_process_botpress_*`
helpers is unreachable and not modelled further — and the outer handler
rolls back and answers 500. -/
def handle_botpress_webhook (st : DBState)
    (hmac_sha256_hex : String → String → String) (webhook_secret : Option String)
    (signature : Option String) (payload : String) (webhook_data : BpWebhookData)
    (now : Nat) : Nat × DBState :=
  let rejected :=
    if pyTruthyStr signature then
      if pyTruthyStr webhook_secret then
        !(validate_webhook_signature hmac_sha256_hex payload
          (signature.getD "") (webhook_secret.getD ""))
      else false
    else false
  if rejected then (403, st)
  else
    let processed_event := botpress_process_webhook_event webhook_data
    match routeWebhookEventInit "botpress" (processed_event.event_type.getD "") with
    | Except.ok webhook_event =>
      (200, { st with webhook_events := st.webhook_events ++ [webhook_event] })
    | Except.error _ => (500, st)

/-- A concrete stand-in digest function for closed evaluations. -/
def hmacZero : String → String → String := fun _ _ => "0"

/-- A well-formed Botpress callback body. -/
def bpData : BpWebhookData :=
  { type := some "message_received", botId := some "b1",
    conversationId := some "bc1" }

/-- C6 counterexample: with a webhook secret configured, a request whose
signature header is missing is not rejected with 403, and neither is one
whose header is the empty string (falsy under `if signature:`, so it
likewise skips validation although it can never validate against any
digest). On the concrete store `stInbound` both are answered 500 (the
record step raises), not 403 — the rejection the claim requires never
happens for them. -/
theorem missing_signature_counterexample :
    (handle_botpress_webhook stInbound hmacZero (some "sec") none "body"
      bpData 9).1 = 500 ∧
    ¬((handle_botpress_webhook stInbound hmacZero (some "sec") none "body"
      bpData 9).1 = 403) ∧
    (handle_botpress_webhook stInbound hmacZero (some "sec") (some "") "body"
      bpData 9).1 = 500 ∧
    ¬((handle_botpress_webhook stInbound hmacZero (some "sec") (some "") "body"
      bpData 9).1 = 403) := by
  decide

/-- C6 amended: with a truthy (non-empty) secret configured, only a request
that carries a truthy (non-empty) signature header failing validation is
rejected with 403, the store left untouched (no WebhookEvent recorded or
processed); a request whose signature header is missing or empty — Python
falsy — bypasses validation entirely and proceeds to the record step, which
fails, so it is answered 500 with the store likewise untouched. -/
theorem botpress_signature_check (st : DBState)
    (hmacf : String → String → String) (secret sig : Option String)
    (payload : String) (d : BpWebhookData) (now : Nat) :
    (∀ s k, sig = some s → s ≠ "" → secret = some k → k ≠ "" →
      validate_webhook_signature hmacf payload s k = false →
      handle_botpress_webhook st hmacf secret sig payload d now = (403, st)) ∧
    (pyTruthyStr sig = false →
      handle_botpress_webhook st hmacf secret sig payload d now = (500, st)) := by
  constructor
  · intro s k hs hsne hk hkne hv
    subst hs
    subst hk
    have h1 : pyTruthyStr (some s) = true := by
      simp [pyTruthyStr, hsne]
    have h2 : pyTruthyStr (some k) = true := by
      simp [pyTruthyStr, hkne]
    simp only [handle_botpress_webhook, h1, h2, if_true, Option.getD_some]
    rw [hv]
    rfl
  · intro hs
    simp only [handle_botpress_webhook, hs]
    rfl

/-- Witness for `botpress_signature_check`: with the secret `sec` configured
and the stand-in digest `hmacZero`, the non-empty header value `bad` fails
validation and is answered 403, while a missing header and an empty-string
header are both answered 500; the store is unchanged in all three cases. -/
theorem botpress_signature_check_witness :
    handle_botpress_webhook stInbound hmacZero (some "sec") (some "bad")
      "body" bpData 9 = (403, stInbound) ∧
    handle_botpress_webhook stInbound hmacZero (some "sec") none
      "body" bpData 9 = (500, stInbound) ∧
    handle_botpress_webhook stInbound hmacZero (some "sec") (some "")
      "body" bpData 9 = (500, stInbound) :=
  ⟨(botpress_signature_check stInbound hmacZero (some "sec") (some "bad")
      "body" bpData 9).1 "bad" "sec" rfl (by decide) rfl (by decide) (by decide),
   (botpress_signature_check stInbound hmacZero (some "sec") none
      "body" bpData 9).2 rfl,
   (botpress_signature_check stInbound hmacZero (some "sec") (some "")
      "body" bpData 9).2 (by decide)⟩
